import Mathlib

/-!
Verification of the `Propellers` class from `propellers.py`.

The class stores, for `n` propellers, vectors of diameters and pitches
(converted from meters to inches at construction), current speeds (RPM) and
derived thrusts (newtons).  Tensors of shape `(n)` are modelled as `List ℝ`;
the elementwise tensor arithmetic of the source is modelled by elementwise
maps over these lists.  A Python `ValueError` is modelled as `Except.error`
carrying the formatted message string.
-/

/-- State of the `Propellers` class: propeller count and the four
per-propeller vectors (diameter and pitch in inches, speed in RPM,
thrust in newtons). -/
structure Propellers where
  n : ℕ
  dia : List ℝ
  pitch : List ℝ
  speed : List ℝ
  thrust : List ℝ

/-- Elementwise combination of three equal-length vectors, the semantics of
the source's elementwise tensor arithmetic over three shape-`(n)` tensors. -/
def zipWith3 (f : ℝ → ℝ → ℝ → ℝ) : List ℝ → List ℝ → List ℝ → List ℝ
  | a :: as, b :: bs, c :: cs => f a b c :: zipWith3 f as bs cs
  | _, _, _ => []

/-- The `ValueError` message raised by `__init__` when the diameters
vector has the wrong length (f-string of the source, line 29). -/
def diaErrorMsg (got expected : ℕ) : String :=
  s!"Shape of propeller_diameters ({got}) not equal to n_propellers ({expected})."

/-- The `ValueError` message raised by `__init__` when the pitches
vector has the wrong length (f-string of the source, line 32). -/
def pitchErrorMsg (got expected : ℕ) : String :=
  s!"Shape of propeller_pitchs ({got}) not equal to n_propellers ({expected})."

/-- The `ValueError` message raised by `set_speed` when the speeds vector has
the wrong length (f-string of the source, line 47; the shape of a 1-D tensor
of length `got` prints as `torch.Size([got])`). -/
def speedErrorMsg (got expected : ℕ) : String :=
  s!"Shape of speed (torch.Size([{got}])) not equal to n_propellers ({expected})."

/-- Model of `Propellers.__init__`: checks the diameters length, stores the diameters
scaled to inches, checks the pitches length, stores the pitches scaled to
inches, and zero-initializes `speed` and `thrust`.  The two guards raise
`ValueError` (modelled as `Except.error`); note the diameter guard runs
before the pitch vector is touched. -/
def Propellers.init (n_propellers : ℕ) (propeller_diameters : List ℝ)
    (propeller_pitchs : List ℝ) : Except String Propellers :=
  if propeller_diameters.length ≠ n_propellers then
    Except.error (diaErrorMsg propeller_diameters.length n_propellers)
  else if propeller_pitchs.length ≠ n_propellers then
    Except.error (pitchErrorMsg propeller_pitchs.length n_propellers)
  else
    Except.ok ⟨n_propellers,
      propeller_diameters.map (fun d => d * 39.37),
      propeller_pitchs.map (fun q => q * 39.37),
      List.replicate n_propellers 0,
      List.replicate n_propellers 0⟩

/-- First thrust assignment of `set_speed` (elementwise):
`4.392e-8 * speed * dia ** 3.5 / sqrt(pitch)`. -/
noncomputable def thrustStep1 (s d q : ℝ) : ℝ :=
  4.392e-8 * s * d ^ (3.5 : ℝ) / Real.sqrt q

/-- Second thrust assignment of `set_speed` (elementwise):
`thrust * (4.23e-4 * speed * pitch)`. -/
noncomputable def thrustStep2 (t s q : ℝ) : ℝ :=
  t * (4.23e-4 * s * q)

/-- The per-propeller thrust value `set_speed` computes: the two assignments
composed. -/
noncomputable def elemThrust (s d q : ℝ) : ℝ :=
  thrustStep2 (thrustStep1 s d q) s q

/-- The full thrust vector `set_speed` computes from the speed, diameter and
pitch vectors (the two elementwise tensor assignments of the source). -/
noncomputable def thrustVec (speed dia pitch : List ℝ) : List ℝ :=
  zipWith3 thrustStep2 (zipWith3 thrustStep1 speed dia pitch) speed pitch

/-- Model of `Propellers.set_speed`: checks the speeds length against `self.n`,
then replaces `speed` and recomputes `thrust` by the two elementwise
assignments.  The guard raises `ValueError` (modelled as `Except.error`). -/
noncomputable def Propellers.set_speed (p : Propellers) (propeller_speeds : List ℝ) :
    Except String Propellers :=
  if propeller_speeds.length ≠ p.n then
    Except.error (speedErrorMsg propeller_speeds.length p.n)
  else
    Except.ok ⟨p.n, p.dia, p.pitch, propeller_speeds,
      thrustVec propeller_speeds p.dia p.pitch⟩

/-- Caller-side view of one `set_speed` call: on success the new state, on a
raised `ValueError` the state is left exactly as it was. -/
noncomputable def Propellers.setSpeedRun (p : Propellers) (propeller_speeds : List ℝ) :
    Propellers :=
  match p.set_speed propeller_speeds with
  | Except.ok p' => p'
  | Except.error _ => p

/-- State after a sequence of `set_speed` calls (each call either updating
the state or, when it raises, leaving it unchanged). -/
noncomputable def Propellers.runSets (p : Propellers) : List (List ℝ) → Propellers
  | [] => p
  | s :: rest => (p.setSpeedRun s).runSets rest

/-- The length invariant of the class: all four vectors have length `n`. -/
def Propellers.Wf (p : Propellers) : Prop :=
  p.dia.length = p.n ∧ p.pitch.length = p.n ∧
    p.speed.length = p.n ∧ p.thrust.length = p.n

/-- Modelled from the spec: the closed-form thrust formula
`4.392e-8 * 4.23e-4 * speed^2 * diameter^3.5 * pitch^0.5` that the spec
offers as equivalent to the source's two-step computation.  (The source
only contains the two-step form.) -/
noncomputable def closedFormThrust (s d q : ℝ) : ℝ :=
  4.392e-8 * 4.23e-4 * s ^ 2 * d ^ (3.5 : ℝ) * q ^ (0.5 : ℝ)

-- ### Helper lemmas

theorem zipWith3_length {f : ℝ → ℝ → ℝ → ℝ} {as bs cs : List ℝ} {n : ℕ}
    (ha : as.length = n) (hb : bs.length = n) (hc : cs.length = n) :
    (zipWith3 f as bs cs).length = n := by
  induction as generalizing bs cs n with
  | nil => cases bs <;> cases cs <;> simp_all [zipWith3]
  | cons a as ih =>
    cases bs with
    | nil => simp only [List.length_nil] at hb; simp at ha; omega
    | cons b bs =>
      cases cs with
      | nil => simp only [List.length_nil] at hc; simp at ha; omega
      | cons c cs =>
        cases n with
        | zero => simp at ha
        | succ m =>
          simp only [zipWith3, List.length_cons] at *
          exact congrArg Nat.succ (ih (Nat.succ_injective ha)
            (Nat.succ_injective hb) (Nat.succ_injective hc))

theorem zipWith3_getD {f : ℝ → ℝ → ℝ → ℝ} {as bs cs : List ℝ} {n i : ℕ}
    (ha : as.length = n) (hb : bs.length = n) (hc : cs.length = n)
    (hi : i < n) :
    (zipWith3 f as bs cs).getD i 0 =
      f (as.getD i 0) (bs.getD i 0) (cs.getD i 0) := by
  induction as generalizing bs cs n i with
  | nil => subst ha; simp at hi
  | cons a as ih =>
    cases bs with
    | nil => rw [← hb] at ha; simp at ha
    | cons b bs =>
      cases cs with
      | nil => rw [← hc] at ha; simp at ha
      | cons c cs =>
        cases n with
        | zero => simp at ha
        | succ m =>
          cases i with
          | zero => simp [zipWith3]
          | succ j =>
            simp only [zipWith3, List.getD_cons_succ]
            exact ih (Nat.succ_injective ha) (Nat.succ_injective hb)
              (Nat.succ_injective hc) (Nat.lt_of_succ_lt_succ hi)

theorem init_ok_inv {n : ℕ} {ds qs : List ℝ} {p : Propellers}
    (h : Propellers.init n ds qs = Except.ok p) :
    ds.length = n ∧ qs.length = n ∧
      p = ⟨n, ds.map (fun d => d * 39.37), qs.map (fun q => q * 39.37),
        List.replicate n 0, List.replicate n 0⟩ := by
  unfold Propellers.init at h
  split at h
  · exact absurd h (by simp)
  · split at h
    · exact absurd h (by simp)
    · refine ⟨by omega, by omega, ?_⟩
      exact (Except.ok.inj h).symm

theorem set_speed_ok {p : Propellers} {s : List ℝ} (hs : s.length = p.n) :
    p.set_speed s = Except.ok ⟨p.n, p.dia, p.pitch, s,
      thrustVec s p.dia p.pitch⟩ := by
  simp [Propellers.set_speed, hs]

theorem elemThrust_closed (s d q : ℝ) :
    elemThrust s d q =
      4.392e-8 * 4.23e-4 * d ^ (3.5 : ℝ) * Real.sqrt q * s ^ 2 := by
  unfold elemThrust thrustStep1 thrustStep2
  have key : 4.392e-8 * s * d ^ (3.5 : ℝ) / Real.sqrt q * (4.23e-4 * s * q) =
      4.392e-8 * 4.23e-4 * d ^ (3.5 : ℝ) * (q / Real.sqrt q) * s ^ 2 := by
    ring
  rw [key, Real.div_sqrt]

-- ### Claims

/-- C2: the two-step per-element thrust computation of `set_speed` equals the
closed form `4.392e-8 * 4.23e-4 * s^2 * d^3.5 * q^0.5` for every speed `s`
and positive diameter `d` and pitch `q`. -/
theorem two_step_thrust_eq_closed_form (s d q : ℝ) (hd : 0 < d)
    (hq : 0 < q) : elemThrust s d q = closedFormThrust s d q := by
  rw [elemThrust_closed]
  unfold closedFormThrust
  rw [show (0.5 : ℝ) = 1 / 2 by norm_num, ← Real.sqrt_eq_rpow]
  ring

/-- Witness for C2 at `s = 1`, `d = 1`, `q = 1`. -/
theorem two_step_thrust_eq_closed_form_witness :
    elemThrust 1 1 1 = closedFormThrust 1 1 1 :=
  two_step_thrust_eq_closed_form 1 1 1 one_pos one_pos

theorem elemThrust_abs_lt {d q s1 s2 : ℝ} (hd : 0 < d) (hq : 0 < q)
    (h : |s1| < |s2|) : |elemThrust s1 d q| < |elemThrust s2 d q| := by
  rw [elemThrust_closed, elemThrust_closed]
  have hC : (0:ℝ) < 4.392e-8 * 4.23e-4 * d ^ (3.5 : ℝ) * Real.sqrt q := by
    positivity
  rw [abs_of_nonneg (by positivity), abs_of_nonneg (by positivity)]
  exact mul_lt_mul_of_pos_left (sq_lt_sq.2 h) hC

/-- C3: for matching-length inputs, `__init__` succeeds and stores the
geometry converted to inches (elementwise `* 39.37`) with zero speed and
thrust vectors of length `count`. -/
theorem construct_stores_converted_geometry (n : ℕ) (ds qs : List ℝ)
    (hn : 0 < n) (hd : ds.length = n) (hq : qs.length = n) :
    Propellers.init n ds qs = Except.ok ⟨n, ds.map (fun d => d * 39.37),
      qs.map (fun q => q * 39.37), List.replicate n 0,
      List.replicate n 0⟩ := by
  simp [Propellers.init, hd, hq]

/-- Witness for C3 at `n = 1`, `ds = [3]`, `qs = [2]`. -/
theorem construct_stores_converted_geometry_witness :
    Propellers.init 1 [3] [2] = Except.ok ⟨1, [(3:ℝ) * 39.37],
      [(2:ℝ) * 39.37], [0], [0]⟩ :=
  construct_stores_converted_geometry 1 [3] [2] one_pos rfl rfl

/-- C4: `__init__` raises `ValueError` with a message carrying both lengths
when the diameters length mismatches (for every pitches vector, so the
pitch values are never read), and, when the diameters length matches but
the pitches length does not, raises the pitches `ValueError`; the diameter
check therefore runs first. -/
theorem construct_length_validation (n : ℕ) (ds qs : List ℝ) :
    (ds.length ≠ n →
      Propellers.init n ds qs = Except.error (diaErrorMsg ds.length n)) ∧
    (ds.length = n → qs.length ≠ n →
      Propellers.init n ds qs = Except.error (pitchErrorMsg qs.length n)) := by
  constructor
  · intro h
    simp [Propellers.init, h]
  · intro hd hq
    simp [Propellers.init, hd, hq]

/-- Witness for C4: diameters of length 1 against `count = 2` (for either
branch). -/
theorem construct_length_validation_witness :
    Propellers.init 2 [0.3] [0.2, 0.2] = Except.error (diaErrorMsg 1 2) ∧
    Propellers.init 2 [0.3, 0.3] [0.2] = Except.error (pitchErrorMsg 1 2) :=
  ⟨(construct_length_validation 2 [0.3] [0.2, 0.2]).1 (by decide),
   (construct_length_validation 2 [0.3, 0.3] [0.2]).2 (by decide) (by decide)⟩

/-- C5: `set_speed` with a speeds vector whose length differs from `n`
raises `ValueError` and the state is left exactly as it was (no partial
update). -/
theorem set_speed_length_validation (p : Propellers) (s : List ℝ)
    (h : s.length ≠ p.n) :
    p.set_speed s = Except.error (speedErrorMsg s.length p.n) ∧
    p.setSpeedRun s = p := by
  constructor
  · simp [Propellers.set_speed, h]
  · simp [Propellers.setSpeedRun, Propellers.set_speed, h]

/-- Witness for C5: a two-element speeds vector against `count = 3`. -/
theorem set_speed_length_validation_witness :
    (Propellers.mk 3 [1, 1, 1] [1, 1, 1] [0, 0, 0] [0, 0, 0]).set_speed [1, 2]
        = Except.error (speedErrorMsg 2 3) ∧
    (Propellers.mk 3 [1, 1, 1] [1, 1, 1] [0, 0, 0] [0, 0, 0]).setSpeedRun [1, 2]
        = Propellers.mk 3 [1, 1, 1] [1, 1, 1] [0, 0, 0] [0, 0, 0] :=
  set_speed_length_validation (Propellers.mk 3 [1, 1, 1] [1, 1, 1]
    [0, 0, 0] [0, 0, 0]) [1, 2] (by decide)

/-- C7: a `set_speed` call, whether it raises or succeeds, never changes
`n`, `dia` or `pitch`; only `speed` and `thrust` may change. -/
theorem set_speed_frame (p : Propellers) (s : List ℝ) :
    (p.setSpeedRun s).n = p.n ∧ (p.setSpeedRun s).dia = p.dia ∧
      (p.setSpeedRun s).pitch = p.pitch := by
  by_cases h : s.length = p.n
  · simp [Propellers.setSpeedRun, Propellers.set_speed, h]
  · simp [Propellers.setSpeedRun, Propellers.set_speed, h]

/-- C10: `__init__` validates nothing but the two lengths: `count = 0` with
empty inputs succeeds with four empty vectors, and any matching-length
inputs (including zero or negative diameters and pitches) are accepted. -/
theorem construct_no_value_validation :
    Propellers.init 0 [] [] = Except.ok ⟨0, [], [], [], []⟩ ∧
    ∀ (n : ℕ) (ds qs : List ℝ), ds.length = n → qs.length = n →
      (Propellers.init n ds qs).isOk = true := by
  constructor
  · rfl
  · intro n ds qs hd hq
    simp [Propellers.init, hd, hq, Except.isOk, Except.toBool]

/-- Witness for C10: a negative diameter and a zero pitch are accepted. -/
theorem construct_no_value_validation_witness :
    (Propellers.init 1 [-1] [0]).isOk = true :=
  construct_no_value_validation.2 1 [-1] [0] rfl rfl

theorem getD_map_mul (c : ℝ) {l : List ℝ} {n i : ℕ} (h : l.length = n)
    (hi : i < n) : (l.map (fun x => x * c)).getD i 0 = l.getD i 0 * c := by
  induction l generalizing n i with
  | nil => subst h; simp at hi
  | cons a l ih =>
    cases n with
    | zero => simp at h
    | succ m =>
      cases i with
      | zero => simp
      | succ j =>
        simp only [List.map_cons, List.getD_cons_succ]
        exact ih (Nat.succ_injective h) (Nat.lt_of_succ_lt_succ hi)

theorem setSpeedRun_thrust_getD {p : Propellers} {s : List ℝ}
    (hs : s.length = p.n) (hdl : p.dia.length = p.n)
    (hql : p.pitch.length = p.n) {i : ℕ} (hi : i < p.n) :
    (p.setSpeedRun s).thrust.getD i 0 =
      thrustStep2 (thrustStep1 (s.getD i 0) (p.dia.getD i 0)
        (p.pitch.getD i 0)) (s.getD i 0) (p.pitch.getD i 0) := by
  simp only [Propellers.setSpeedRun, set_speed_ok hs]
  unfold thrustVec
  rw [zipWith3_getD (zipWith3_length hs hdl hql) hs hql hi,
    zipWith3_getD hs hdl hql hi]

/-- C1: for a successfully constructed array and a speeds vector of length
`count`, `set_speed` succeeds, replaces `speed` with the given vector, and
sets every `thrust[i]` to
`(4.392e-8 * speeds[i] * diameter[i]^3.5 / sqrt(pitch[i])) *
(4.23e-4 * speeds[i] * pitch[i])` where `diameter`/`pitch` are the
inch-converted (`* 39.37`) inputs stored at construction. -/
theorem set_speed_computes_thrust (n : ℕ) (ds qs s : List ℝ)
    (p : Propellers) (h : Propellers.init n ds qs = Except.ok p)
    (hs : s.length = n) :
    (p.set_speed s).isOk = true ∧ (p.setSpeedRun s).speed = s ∧
    ∀ i, i < n → (p.setSpeedRun s).thrust.getD i 0 =
      4.392e-8 * s.getD i 0 * (ds.getD i 0 * 39.37) ^ (3.5 : ℝ) /
          Real.sqrt (qs.getD i 0 * 39.37) *
        (4.23e-4 * s.getD i 0 * (qs.getD i 0 * 39.37)) := by
  obtain ⟨hd, hq, hp⟩ := init_ok_inv h
  have hpn : p.n = n := by rw [hp]
  have hdia : p.dia = ds.map (fun d => d * 39.37) := by rw [hp]
  have hpit : p.pitch = qs.map (fun q => q * 39.37) := by rw [hp]
  have hs' : s.length = p.n := by rw [hpn]; exact hs
  refine ⟨?_, ?_, ?_⟩
  · rw [set_speed_ok hs']; rfl
  · simp [Propellers.setSpeedRun, set_speed_ok hs']
  · intro i hi
    rw [setSpeedRun_thrust_getD hs' (by rw [hdia, List.length_map, hd, hpn])
      (by rw [hpit, List.length_map, hq, hpn]) (by rw [hpn]; exact hi)]
    rw [hdia, hpit, getD_map_mul (39.37 : ℝ) hd hi,
      getD_map_mul (39.37 : ℝ) hq hi]
    rfl

/-- Witness for C1: one propeller, diameter 3 m, pitch 2 m, speed 3000 RPM. -/
theorem set_speed_computes_thrust_witness :
    ((Propellers.mk 1 [(3:ℝ) * 39.37] [(2:ℝ) * 39.37] [0] [0]).set_speed
        [3000]).isOk = true ∧
    ((Propellers.mk 1 [(3:ℝ) * 39.37] [(2:ℝ) * 39.37] [0] [0]).setSpeedRun
        [3000]).thrust.getD 0 0 =
      4.392e-8 * (3000 : ℝ) * ((3:ℝ) * 39.37) ^ (3.5 : ℝ) /
          Real.sqrt ((2:ℝ) * 39.37) *
        (4.23e-4 * (3000 : ℝ) * ((2:ℝ) * 39.37)) := by
  have h := set_speed_computes_thrust 1 [3] [2] [3000]
    (Propellers.mk 1 [(3:ℝ) * 39.37] [(2:ℝ) * 39.37] [0] [0]) rfl rfl
  exact ⟨h.1, h.2.2 0 Nat.one_pos⟩

theorem setSpeedRun_n (p : Propellers) (s : List ℝ) :
    (p.setSpeedRun s).n = p.n := by
  by_cases h : s.length = p.n
  · simp [Propellers.setSpeedRun, Propellers.set_speed, h]
  · simp [Propellers.setSpeedRun, Propellers.set_speed, h]

theorem setSpeedRun_wf {p : Propellers} (hp : p.Wf) (s : List ℝ) :
    (p.setSpeedRun s).Wf := by
  by_cases h : s.length = p.n
  · obtain ⟨h1, h2, h3, h4⟩ := hp
    simp only [Propellers.setSpeedRun, set_speed_ok h, Propellers.Wf,
      thrustVec]
    exact ⟨h1, h2, h, zipWith3_length (zipWith3_length h h1 h2) h h2⟩
  · simpa [Propellers.setSpeedRun, Propellers.set_speed, h] using hp

theorem runSets_wf {p : Propellers} (hp : p.Wf) (calls : List (List ℝ)) :
    (p.runSets calls).Wf := by
  induction calls generalizing p with
  | nil => exact hp
  | cons s rest ih => exact ih (setSpeedRun_wf hp s)

theorem runSets_n (p : Propellers) (calls : List (List ℝ)) :
    (p.runSets calls).n = p.n := by
  induction calls generalizing p with
  | nil => rfl
  | cons s rest ih => rw [Propellers.runSets, ih, setSpeedRun_n]

/-- C6: every state reachable from a successful construction by any sequence
of `set_speed` calls (each either succeeding or raising) satisfies the length
invariant: all four vectors have length `count`. -/
theorem reachable_state_lengths (n : ℕ) (ds qs : List ℝ) (p : Propellers)
    (h : Propellers.init n ds qs = Except.ok p) (calls : List (List ℝ)) :
    (p.runSets calls).Wf ∧ (p.runSets calls).n = n := by
  obtain ⟨hd, hq, hp⟩ := init_ok_inv h
  have hw : p.Wf := by
    rw [hp]
    exact ⟨by simp [hd], by simp [hq], by simp, by simp⟩
  have hn : p.n = n := by rw [hp]
  exact ⟨runSets_wf hw calls, (runSets_n p calls).trans hn⟩

/-- Witness for C6: one propeller, then a succeeding and a raising call. -/
theorem reachable_state_lengths_witness :
    ((Propellers.mk 1 [(3:ℝ) * 39.37] [(2:ℝ) * 39.37] [0] [0]).runSets
        [[5], [1, 2]]).Wf ∧
    ((Propellers.mk 1 [(3:ℝ) * 39.37] [(2:ℝ) * 39.37] [0] [0]).runSets
        [[5], [1, 2]]).n = 1 :=
  reachable_state_lengths 1 [3] [2]
    (Propellers.mk 1 [(3:ℝ) * 39.37] [(2:ℝ) * 39.37] [0] [0]) rfl
    [[5], [1, 2]]

/-- C8: with a valid speeds vector, `set_speed` succeeds and a second call
with the same vector succeeds and returns exactly the state of the first
call, so the thrust after each call is identical (the thrust is a pure
function of speed, diameter and pitch). -/
theorem set_speed_idempotent (p : Propellers) (s : List ℝ)
    (hs : s.length = p.n) :
    p.set_speed s = Except.ok (p.setSpeedRun s) ∧
    (p.setSpeedRun s).set_speed s = Except.ok (p.setSpeedRun s) := by
  have h1 := set_speed_ok hs
  have hrun : p.setSpeedRun s =
      ⟨p.n, p.dia, p.pitch, s, thrustVec s p.dia p.pitch⟩ := by
    simp [Propellers.setSpeedRun, h1]
  refine ⟨by rw [h1, hrun], ?_⟩
  rw [hrun]
  exact set_speed_ok hs

/-- Witness for C8: one propeller, speed vector `[2]` set twice. -/
theorem set_speed_idempotent_witness :
    (Propellers.mk 1 [1] [1] [0] [0]).set_speed [2] =
      Except.ok ((Propellers.mk 1 [1] [1] [0] [0]).setSpeedRun [2]) ∧
    ((Propellers.mk 1 [1] [1] [0] [0]).setSpeedRun [2]).set_speed [2] =
      Except.ok ((Propellers.mk 1 [1] [1] [0] [0]).setSpeedRun [2]) :=
  set_speed_idempotent (Propellers.mk 1 [1] [1] [0] [0]) [2] rfl

/-- C9: for a propeller `i` with positive (stored) diameter and pitch, the
magnitude of `thrust[i]` produced by `set_speed` is strictly increasing in
the magnitude of `speed[i]`: speed vectors whose entries at `i` satisfy
`|s1[i]| < |s2[i]|` yield `|thrust[i]|` strictly larger for the second. -/
theorem thrust_mono_in_speed (p : Propellers) (s1 s2 : List ℝ) (i : ℕ)
    (h1 : s1.length = p.n) (h2 : s2.length = p.n)
    (hdl : p.dia.length = p.n) (hql : p.pitch.length = p.n) (hi : i < p.n)
    (hd : 0 < p.dia.getD i 0) (hq : 0 < p.pitch.getD i 0)
    (h : |s1.getD i 0| < |s2.getD i 0|) :
    |(p.setSpeedRun s1).thrust.getD i 0| <
      |(p.setSpeedRun s2).thrust.getD i 0| := by
  rw [setSpeedRun_thrust_getD h1 hdl hql hi,
    setSpeedRun_thrust_getD h2 hdl hql hi]
  exact elemThrust_abs_lt hd hq h

/-- Witness for C9: one propeller with unit geometry, speeds 0 and 1. -/
theorem thrust_mono_in_speed_witness :
    |((Propellers.mk 1 [1] [1] [0] [0]).setSpeedRun [0]).thrust.getD 0 0| <
      |((Propellers.mk 1 [1] [1] [0] [0]).setSpeedRun [1]).thrust.getD 0 0| :=
  thrust_mono_in_speed (Propellers.mk 1 [1] [1] [0] [0]) [0] [1] 0
    rfl rfl rfl rfl Nat.one_pos one_pos one_pos (by simp)
